import Mathlib

/-
Shallow embedding of `xonsh/prompt/gitstatus.py` (informative git status
prompt formatter).

Python strings are modelled as `List Char` (`PyStr`).  The helper
functions `pySplit`, `strContains`, `pyTrim`, ... are direct models of
the Python string primitives the source uses (`str.split`, `in`,
`str.strip`, ...).  The external world (the outputs of the four `git`
subprocess invocations, the stash log file, and the operation marker
files) is a `World` record; the xonsh environment is a partial map
`Env`.  Fallible Python code (subprocess failures, `int()` conversion
errors, tuple-unpacking errors) is modelled in the `Except PyErr` monad;
`subprocess.SubprocessError` is the only exception class caught by
`gitstatus_prompt`, so the other error kinds propagate out of it.
-/

deriving instance DecidableEq for Except

namespace Gitstatus

/-- Model of a Python `str`: a list of characters. -/
abbrev PyStr := List Char

/-- Outcome of one `subprocess.check_output` invocation: captured stdout on
success, `subErr` for a `subprocess.SubprocessError` (non-zero exit status or
timeout), `osErr` for an `OSError` (inability to launch the process, e.g. a
missing executable), which is not a `SubprocessError`. -/
inductive CmdResult
  | out (s : PyStr)
  | subErr
  | osErr
deriving DecidableEq, Repr

/-- Outcome of opening and reading a file: absent (`FileNotFoundError`),
a read error (`OSError`/`IOError`), or its text content. -/
inductive FileOutcome
  | absent
  | ioErr
  | content (s : PyStr)
deriving DecidableEq, Repr

/-- Kinds of Python exceptions the embedded code can raise.
`valueError` covers `int()` conversion failures and tuple-unpacking
failures of `line.split('...')`. -/
inductive PyErr
  | subprocess
  | osError
  | valueError
deriving DecidableEq, Repr

/-- External state of one render call: the results of the four `git`
invocations, the stash log file, and the six operation marker files
under the git metadata directory. -/
structure World where
  statusRes : CmdResult
  gitdirRes : CmdResult
  describeRes : CmdResult
  revShortRes : CmdResult
  stashLog : FileOutcome
  rebaseMerge : Bool
  rebaseApply : Bool
  mergeHead : Bool
  cherryPickHead : Bool
  revertHead : Bool
  bisectLog : Bool
deriving DecidableEq, Repr

/-- Model of `builtins.__xonsh_env__.get`: a partial map from variable
names to string values. -/
def Env := PyStr → Option PyStr

/-- Model of `_check_output`: returns the captured stdout, or raises. -/
def _check_output : CmdResult → Except PyErr PyStr
  | .out s => .ok s
  | .subErr => .error .subprocess
  | .osErr => .error .osError

/-- Model of Python `needle in s` (substring containment). -/
def strContains : PyStr → PyStr → Bool
  | [], needle => needle.isEmpty
  | c :: rest, needle => needle.isPrefixOf (c :: rest) || strContains rest needle

/-- Auxiliary for `pySplit`; the fuel argument starts as the length of the
string, and at least one character is consumed per step. -/
def pySplitAux (sep : PyStr) : Nat → PyStr → PyStr → List PyStr
  | _, [], acc => [acc.reverse]
  | 0, rest, acc => [acc.reverse ++ rest]
  | fuel + 1, c :: rest, acc =>
    if sep.isPrefixOf (c :: rest) then
      acc.reverse :: pySplitAux sep fuel (List.drop (sep.length - 1) rest) []
    else
      pySplitAux sep fuel rest (c :: acc)

/-- Model of Python `s.split(sep)` for a non-empty separator: non-overlapping
occurrences, left to right; always returns at least one piece. -/
def pySplit (sep s : PyStr) : List PyStr := pySplitAux sep s.length s []

/-- Model of Python `s.splitlines()` for text whose line terminator is
the newline character (which is what `universal_newlines=True` output
contains): the chunks between newlines, with no trailing empty chunk. -/
def pySplitlines : PyStr → List PyStr
  | [] => []
  | c :: rest =>
    if c = '\n' then [] :: pySplitlines rest
    else
      match pySplitlines rest with
      | [] => [[c]]
      | l :: ls => (c :: l) :: ls

/-- Model of Python `s.rstrip()` restricted to ASCII whitespace. -/
def trimEnd (s : PyStr) : PyStr := (s.reverse.dropWhile Char.isWhitespace).reverse

/-- Model of Python `s.strip()` restricted to ASCII whitespace. -/
def pyTrim (s : PyStr) : PyStr := trimEnd (s.dropWhile Char.isWhitespace)

/-- Square-bracket test for `s.strip('[]')`. -/
def isSquare (c : Char) : Bool := c = '[' || c = ']'

/-- Model of Python `s.strip('[]')`: remove any run of `[` and `]`
characters from both ends. -/
def pyStripSquare (s : PyStr) : PyStr :=
  ((s.dropWhile isSquare).reverse.dropWhile isSquare).reverse

/-- Model of Python `s.split(' ', 1)[-1]`: the text after the first space,
or the whole string when it has no space. -/
def pySplitFirst (s : PyStr) : PyStr :=
  match s.dropWhile (· ≠ ' ') with
  | [] => s
  | _ :: rest => rest

/-- Model of Python `line.split()[-1]` (split on whitespace runs, last
token).  The source only evaluates this under `'Initial commit on' in line`,
which guarantees at least one token; on an all-whitespace string this model
returns the empty string where Python would raise `IndexError`. -/
def pyLastToken (s : PyStr) : PyStr :=
  ((s.reverse.dropWhile Char.isWhitespace).takeWhile (fun c => ¬ Char.isWhitespace c)).reverse

/-- Numeric value of a list of decimal digit characters. -/
def digitsVal (l : PyStr) : Nat := l.foldl (fun a c => a * 10 + (c.toNat - 48)) 0

/-- Model of Python `int(s)` on a stripped string: an optional sign followed
by one or more decimal digits; anything else raises `ValueError`. -/
def pyInt (s : PyStr) : Except PyErr Int :=
  match pyTrim s with
  | '-' :: ds =>
    if !ds.isEmpty && ds.all Char.isDigit then .ok (-(digitsVal ds : Int))
    else .error .valueError
  | '+' :: ds =>
    if !ds.isEmpty && ds.all Char.isDigit then .ok (digitsVal ds : Int)
    else .error .valueError
  | ds =>
    if !ds.isEmpty && ds.all Char.isDigit then .ok (digitsVal ds : Int)
    else .error .valueError

/-- Model of Python `sep.join(parts)`. -/
def pyJoin (sep : PyStr) : List PyStr → PyStr
  | [] => []
  | a :: rest => rest.foldl (fun acc x => acc ++ sep ++ x) a

/-- Model of Python str of an integer (`str(num_ahead)`). -/
def intChars : Int → PyStr
  | .ofNat n => Nat.toDigits 10 n
  | .negSucc n => '-' :: Nat.toDigits 10 (n + 1)

/-- Model of counting the lines yielded by iterating a Python text file
(`sum(1 for _ in f)`): the number of newline characters, plus one more
line if the text is non-empty and does not end with a newline. -/
def countPyLines (s : PyStr) : Nat :=
  s.count '\n' + (if s ≠ [] ∧ s.getLast? ≠ some '\n' then 1 else 0)

/-- Closed set of semantic symbol keys of the `_DEFS` table. -/
inductive Key
  | HASH
  | BRANCH
  | OPERATION
  | STAGED
  | CONFLICTS
  | CHANGED
  | UNTRACKED
  | STASHED
  | CLEAN
  | AHEAD
  | BEHIND
  | PARTS_SEPARATOR
  | AHEAD_BEHIND_SEPARATOR
  | OPERATIONS_SEPARATOR
  | NUMBERS_SEPARATOR
deriving DecidableEq, Repr

/-- Name of a semantic key, as used in the `_DEFS` dictionary and in the
environment-variable lookup. -/
def keyName : Key → PyStr
  | .HASH => "HASH".data
  | .BRANCH => "BRANCH".data
  | .OPERATION => "OPERATION".data
  | .STAGED => "STAGED".data
  | .CONFLICTS => "CONFLICTS".data
  | .CHANGED => "CHANGED".data
  | .UNTRACKED => "UNTRACKED".data
  | .STASHED => "STASHED".data
  | .CLEAN => "CLEAN".data
  | .AHEAD => "AHEAD".data
  | .BEHIND => "BEHIND".data
  | .PARTS_SEPARATOR => "PARTS_SEPARATOR".data
  | .AHEAD_BEHIND_SEPARATOR => "AHEAD_BEHIND_SEPARATOR".data
  | .OPERATIONS_SEPARATOR => "OPERATIONS_SEPARATOR".data
  | .NUMBERS_SEPARATOR => "NUMBERS_SEPARATOR".data

/-- Model of the `_DEFS` dictionary of built-in symbol defaults. -/
def _DEFS : Key → PyStr
  | .HASH => ":".data
  | .BRANCH => "{CYAN}".data
  | .OPERATION => "{CYAN}".data
  | .STAGED => "{RED}●".data
  | .CONFLICTS => "{RED}×".data
  | .CHANGED => "{BLUE}+".data
  | .UNTRACKED => "…".data
  | .STASHED => "⚑".data
  | .CLEAN => "{BOLD_GREEN}✓".data
  | .AHEAD => "↑·".data
  | .BEHIND => "↓·".data
  | .PARTS_SEPARATOR => "|".data
  | .AHEAD_BEHIND_SEPARATOR => []
  | .OPERATIONS_SEPARATOR => "|".data
  | .NUMBERS_SEPARATOR => []

/-- Environment-variable name looked up by `_get_def` for a key. -/
def envKey (k : Key) : PyStr := "XONSH_GITSTATUS_".data ++ keyName k

/-- Model of `_get_def`: the environment override when present (including
an empty-string value), the built-in default otherwise. -/
def _get_def (env : Env) (k : Key) : PyStr :=
  match env (envKey k) with
  | some v => v
  | none => _DEFS k

/-- Model of `_get_tag_or_hash`: run `git describe --exact-match`; if its
stripped output is non-empty, it is the branch identity; otherwise the
resolved HASH symbol concatenated with the stripped output of
`git rev-parse --short HEAD`. -/
def _get_tag_or_hash (w : World) (env : Env) : Except PyErr PyStr := do
  let tag := pyTrim (← _check_output w.describeRes)
  if tag ≠ [] then
    pure tag
  else
    let hash_ := pyTrim (← _check_output w.revShortRes)
    pure (_get_def env Key.HASH ++ hash_)

/-- Model of `_get_stash`: the number of lines of the stash log file;
`IOError` (which includes the file being absent) yields 0. -/
def _get_stash : FileOutcome → Nat
  | .absent => 0
  | .ioErr => 0
  | .content s => countPyLines s

/-- Model of `_gitoperation`: labels of the operation marker files that
exist, in the fixed order of the source's tuple. -/
def _gitoperation (w : World) : List PyStr :=
  (if w.rebaseMerge then ["REBASE".data] else [])
  ++ (if w.rebaseApply then ["AM/REBASE".data] else [])
  ++ (if w.mergeHead then ["MERGING".data] else [])
  ++ (if w.cherryPickHead then ["CHERRY-PICKING".data] else [])
  ++ (if w.revertHead then ["REVERTING".data] else [])
  ++ (if w.bisectLog then ["BISECTING".data] else [])

/-- Mutable loop state of `gitstatus`'s line loop. -/
structure PState where
  branch : PyStr
  num_ahead : Int
  num_behind : Int
  untracked : Nat
  changed : Nat
  conflicts : Nat
  staged : Nat
deriving DecidableEq, Repr

/-- Initial loop state of `gitstatus`. -/
def PState.init : PState :=
  { branch := [], num_ahead := 0, num_behind := 0,
    untracked := 0, changed := 0, conflicts := 0, staged := 0 }

/-- Body of the divergence loop `for div in divergence.split(', ')`:
a piece containing `ahead` assigns `num_ahead` from `int(div[6:].strip())`;
otherwise a piece containing `behind` assigns `num_behind` from
`int(div[7:].strip())`; other pieces change nothing. -/
def divStep (ab : Int × Int) (div : PyStr) : Except PyErr (Int × Int) :=
  if strContains div ("ahead".data) then do
    let n ← pyInt (div.drop 6)
    pure (n, ab.2)
  else if strContains div ("behind".data) then do
    let n ← pyInt (div.drop 7)
    pure (ab.1, n)
  else
    pure ab

/-- Body of the `for line in status.splitlines()` loop of `gitstatus`:
header lines update branch/ahead/behind (raising `ValueError` when
`line.split('...')` does not yield exactly two pieces or a divergence
count is not an integer), `??` lines count as untracked, and other lines
are classified by their first two characters. -/
def parseLine (w : World) (env : Env) (st : PState) (line : PyStr) :
    Except PyErr PState :=
  if ("##".data).isPrefixOf line then
    let l := pyTrim (line.drop 2)
    if strContains l ("Initial commit on".data) then
      pure { st with branch := pyLastToken l }
    else if strContains l ("no branch".data) then do
      let b ← _get_tag_or_hash w env
      pure { st with branch := b }
    else if !(strContains l ("...".data)) then
      pure { st with branch := l }
    else
      match pySplit ("...".data) l with
      | [b, rest] =>
        if strContains rest [' '] then do
          let divergence := pyStripSquare (pySplitFirst rest)
          let ab ← (pySplit (", ".data) divergence).foldlM divStep
            (st.num_ahead, st.num_behind)
          pure { st with branch := b, num_ahead := ab.1, num_behind := ab.2 }
        else
          pure { st with branch := b }
      | _ => .error .valueError
  else if ("??".data).isPrefixOf line then
    pure { st with untracked := st.untracked + 1 }
  else
    let st1 := if line.get? 1 = some 'M' then { st with changed := st.changed + 1 } else st
    let st2 :=
      if line.get? 0 = some 'U' then { st1 with conflicts := st1.conflicts + 1 }
      else if (line.get? 0).any (fun c => c != ' ') then
        { st1 with staged := st1.staged + 1 }
      else st1
    pure st2

/-- Status record returned by `gitstatus` (the source returns the tuple
`(branch, num_ahead, num_behind, untracked, changed, conflicts, staged,
stashed, operations)`). -/
structure GSRecord where
  branch : PyStr
  num_ahead : Int
  num_behind : Int
  untracked : Nat
  changed : Nat
  conflicts : Nat
  staged : Nat
  stashed : Nat
  operations : List PyStr
deriving DecidableEq, Repr

/-- Model of `gitstatus`: run the status query, fold the line loop over
its lines, resolve the metadata directory, count stashes and detect
operations. -/
def gitstatus (w : World) (env : Env) : Except PyErr GSRecord := do
  let status ← _check_output w.statusRes
  let st ← (pySplitlines status).foldlM (parseLine w env) PState.init
  let _gitdir := pyTrim (← _check_output w.gitdirRes)
  let stashed := _get_stash w.stashLog
  let operations := _gitoperation w
  pure { branch := st.branch, num_ahead := st.num_ahead,
         num_behind := st.num_behind, untracked := st.untracked,
         changed := st.changed, conflicts := st.conflicts,
         staged := st.staged, stashed := stashed, operations := operations }

/-- Branch sub-segments of the prompt: resolved BRANCH symbol plus branch
name, then optional ahead and behind entries. -/
def branch_part (env : Env) (r : GSRecord) : List PyStr :=
  [_get_def env Key.BRANCH ++ r.branch]
  ++ (if r.num_ahead > 0 ∧ _get_def env Key.AHEAD ≠ [] then
        [_get_def env Key.AHEAD ++ intChars r.num_ahead] else [])
  ++ (if r.num_behind > 0 ∧ _get_def env Key.BEHIND ≠ [] then
        [_get_def env Key.BEHIND ++ intChars r.num_behind] else [])

/-- Branch segment string: the branch sub-segments joined with the
resolved AHEAD_BEHIND_SEPARATOR. -/
def branch_str (env : Env) (r : GSRecord) : PyStr :=
  pyJoin (_get_def env Key.AHEAD_BEHIND_SEPARATOR) (branch_part env r)

/-- Operations segment: present only when the operations list is
non-empty; the resolved OPERATION symbol followed by the labels, joined
with the resolved OPERATIONS_SEPARATOR. -/
def operations_segment (env : Env) (r : GSRecord) : List PyStr :=
  if r.operations ≠ [] then
    [pyJoin (_get_def env Key.OPERATIONS_SEPARATOR)
      (_get_def env Key.OPERATION :: r.operations)]
  else []

/-- Entries of the numbers segment, in the fixed source order, with the
CLEAN entry appended when no count is positive. -/
def numbers_part (env : Env) (r : GSRecord) : List PyStr :=
  (if r.staged > 0 ∧ _get_def env Key.STAGED ≠ [] then
     [_get_def env Key.STAGED ++ Nat.toDigits 10 r.staged] else [])
  ++ (if r.conflicts > 0 ∧ _get_def env Key.CONFLICTS ≠ [] then
       [_get_def env Key.CONFLICTS ++ Nat.toDigits 10 r.conflicts] else [])
  ++ (if r.changed > 0 ∧ _get_def env Key.CHANGED ≠ [] then
       [_get_def env Key.CHANGED ++ Nat.toDigits 10 r.changed] else [])
  ++ (if r.untracked > 0 ∧ _get_def env Key.UNTRACKED ≠ [] then
       [_get_def env Key.UNTRACKED ++ Nat.toDigits 10 r.untracked] else [])
  ++ (if r.stashed > 0 ∧ _get_def env Key.STASHED ≠ [] then
       [_get_def env Key.STASHED ++ Nat.toDigits 10 r.stashed] else [])
  ++ (if ¬(r.staged > 0 ∨ r.conflicts > 0 ∨ r.changed > 0 ∨ r.untracked > 0
           ∨ r.stashed > 0) ∧ _get_def env Key.CLEAN ≠ [] then
       [_get_def env Key.CLEAN] else [])

/-- Numbers segment: present only when `numbers_part` is non-empty; each
entry gets a trailing color-reset marker, and the entries are joined with
the resolved NUMBERS_SEPARATOR. -/
def numbers_segment (env : Env) (r : GSRecord) : List PyStr :=
  if numbers_part env r ≠ [] then
    [pyJoin (_get_def env Key.NUMBERS_SEPARATOR)
      ((numbers_part env r).map (fun n => n ++ "{NO_COLOR}".data))]
  else []

/-- All prompt segments, in the fixed order branch, operations, numbers. -/
def renderParts (env : Env) (r : GSRecord) : List PyStr :=
  branch_str env r :: (operations_segment env r ++ numbers_segment env r)

/-- Pure tail of `gitstatus_prompt`: the segments joined with the
resolved PARTS_SEPARATOR. -/
def renderPrompt (env : Env) (r : GSRecord) : PyStr :=
  pyJoin (_get_def env Key.PARTS_SEPARATOR) (renderParts env r)

/-- Model of `gitstatus_prompt`: render the status record; a
`subprocess.SubprocessError` from collection is caught and yields `none`;
any other exception kind propagates. -/
def gitstatus_prompt (w : World) (env : Env) : Except PyErr (Option PyStr) :=
  match gitstatus w env with
  | .ok r => .ok (some (renderPrompt env r))
  | .error .subprocess => .ok none
  | .error e => .error e

/-- Environment with no overrides set. -/
def envNone : Env := fun _ => none

/-- World of the end-to-end scenario: the four-line status output, a
one-entry stash log, and only the rebase-merge marker present. -/
def wEnd : World :=
  { statusRes := .out ("## main...origin/main [ahead 1]\n M file1.txt\n?? new.txt\nUU conflict.txt\n").data,
    gitdirRes := .out (".git\n".data),
    describeRes := .out [],
    revShortRes := .out [],
    stashLog := .content ("0000000 1111111 user <u@x> 0 +0000\tstash entry\n".data),
    rebaseMerge := true, rebaseApply := false, mergeHead := false,
    cherryPickHead := false, revertHead := false, bisectLog := false }

/-- Status record the end-to-end scenario is expected to produce. -/
def recEnd : GSRecord :=
  { branch := "main".data, num_ahead := 1, num_behind := 0,
    untracked := 1, changed := 1, conflicts := 1, staged := 0,
    stashed := 1, operations := ["REBASE".data] }

/-- Quiet repository world (no stash, no operation markers) whose status
query returns the given text. -/
def wOf (s : PyStr) : World :=
  { statusRes := .out s, gitdirRes := .out (".git\n".data),
    describeRes := .out [], revShortRes := .out [],
    stashLog := .absent,
    rebaseMerge := false, rebaseApply := false, mergeHead := false,
    cherryPickHead := false, revertHead := false, bisectLog := false }

/-- World whose status query output has a divergence clause with both an
ahead and a behind count. -/
def wDiv : World := wOf ("## main...origin/main [ahead 2, behind 1]\n").data

/-- World whose status header contains two occurrences of the tracking
separator. -/
def wDouble : World := wOf ("## a...b...c\n").data

/-- World whose status header has a non-integer ahead count. -/
def wBadInt : World := wOf ("## main...origin/main [ahead x]\n").data

/-- World whose status header contains both `Initial commit on` and the
tracking separator. -/
def wInitialDots : World := wOf ("## Initial commit on a...b\n").data

/-- World whose status output is the single entry line ` D x`
(deleted in the working tree, nothing staged). -/
def wDeleted : World := wOf (" D x\n").data

/-- World whose status query fails with a `subprocess.SubprocessError`. -/
def wSubErr : World := { wOf [] with statusRes := .subErr }

/-- World whose status query fails with an `OSError` (the external tool
could not be launched). -/
def wOsErr : World := { wOf [] with statusRes := .osErr }

/-- Status record with every count zero and no operations. -/
def rZero : GSRecord :=
  { branch := "b".data, num_ahead := 0, num_behind := 0,
    untracked := 0, changed := 0, conflicts := 0, staged := 0,
    stashed := 0, operations := [] }

/-- Status record with all five working-tree counts positive. -/
def rPos : GSRecord :=
  { branch := "b".data, num_ahead := 0, num_behind := 0,
    untracked := 4, changed := 3, conflicts := 2, staged := 1,
    stashed := 5, operations := [] }

/-- Environment overriding the CLEAN symbol with the empty string. -/
def envCleanOff : Env :=
  fun n => if n = envKey Key.CLEAN then some [] else none

/-- Detached-HEAD world: the status header says `no branch`, the
exact-match tag lookup answers `v1.2.3`, and the abbreviated hash query
answers `a1b2c3d`. -/
def wDetTag : World :=
  { wOf ("## HEAD (no branch)\n").data with
      describeRes := .out ("v1.2.3\n".data),
      revShortRes := .out ("a1b2c3d\n".data) }

/-- Contribution of one entry line to the untracked counter. -/
def deltaUntracked (l : PyStr) : Nat :=
  if ("??".data).isPrefixOf l then 1 else 0

/-- Contribution of one entry line to the changed counter. -/
def deltaChanged (l : PyStr) : Nat :=
  if ¬ ("??".data).isPrefixOf l ∧ l.get? 1 = some 'M' then 1 else 0

/-- Contribution of one entry line to the conflicts counter. -/
def deltaConflicts (l : PyStr) : Nat :=
  if ¬ ("??".data).isPrefixOf l ∧ l.get? 0 = some 'U' then 1 else 0

/-- Contribution of one entry line to the staged counter. -/
def deltaStaged (l : PyStr) : Nat :=
  if ¬ ("??".data).isPrefixOf l ∧ l.get? 0 ≠ some 'U'
     ∧ (l.get? 0).any (fun c => c != ' ') = true then 1 else 0

/-- Well-formedness of one divergence piece: when it contains `ahead`
(or, failing that, `behind`), the corresponding integer conversion must
succeed. -/
def divOK (d : PyStr) : Bool :=
  if strContains d ("ahead".data) then (pyInt (d.drop 6)).isOk
  else if strContains d ("behind".data) then (pyInt (d.drop 7)).isOk
  else true

/-- Well-formedness of one status line: a header line whose stripped text
contains `...` (and falls in neither of the earlier header cases) must
split into exactly two pieces, with every divergence piece well-formed;
every other line is always processed without raising. -/
def lineOK (l : PyStr) : Bool :=
  if ("##".data).isPrefixOf l then
    let s := pyTrim (l.drop 2)
    if strContains s ("Initial commit on".data) then true
    else if strContains s ("no branch".data) then true
    else if !(strContains s ("...".data)) then true
    else
      match pySplit ("...".data) s with
      | [_, rest] =>
        if strContains rest [' '] then
          (pySplit (", ".data) (pyStripSquare (pySplitFirst rest))).all divOK
        else true
      | _ => false
  else true

/-- Binding a pure continuation over an `Except` value is a map. -/
theorem except_bind_pure {α β : Type} (e : Except PyErr α) (f : α → β) :
    (e >>= fun a => pure (f a) : Except PyErr β) = e.map f := by
  cases e <;> rfl

/-- Reduction of a successful bind in the `Except` monad. -/
theorem bindOk {α β : Type} (a : α) (f : α → Except PyErr β) :
    (Except.ok a >>= f) = f a := rfl

/-- Reduction of a failed bind in the `Except` monad. -/
theorem bindErr {α β : Type} (e : PyErr) (f : α → Except PyErr β) :
    ((Except.error e : Except PyErr α) >>= f) = Except.error e := rfl

/-- Reduction of `pure` in the `Except` monad. -/
theorem pureOk {α : Type} (a : α) : (pure a : Except PyErr α) = Except.ok a := rfl

/-- Folding the join step over a list extends the accumulator on the right. -/
theorem pyJoin_foldl_pre (sep : PyStr) (l : List PyStr) :
    ∀ a : PyStr, ∃ t, l.foldl (fun acc x => acc ++ sep ++ x) a = a ++ t := by
  induction l with
  | nil => exact fun a => ⟨[], (List.append_nil a).symm⟩
  | cons x xs ih =>
    intro a
    obtain ⟨t, ht⟩ := ih (a ++ sep ++ x)
    exact ⟨sep ++ x ++ t, by simpa [List.append_assoc] using ht⟩

/-- Joining a non-empty list of parts starts with the first part. -/
theorem pyJoin_pre (sep a : PyStr) (l : List PyStr) :
    ∃ t, pyJoin sep (a :: l) = a ++ t := pyJoin_foldl_pre sep l a

/-- Claim C1: on the end-to-end scenario (status lines
`## main...origin/main [ahead 1]`, ` M file1.txt`, `?? new.txt`,
`UU conflict.txt`; only the rebase-merge marker present; one stash log
line) the collector returns branch `main`, ahead 1, behind 0, changed 1,
untracked 1, conflicts 1, staged 0, stashed 1, operations `[REBASE]`. -/
theorem gitstatus_end_to_end_scenario : gitstatus wEnd envNone = Except.ok recEnd := by
  decide

/-- Claim C7: for every semantic key of the closed symbol table, the
resolver returns the caller-supplied override exactly when one is present
(including an empty-string override, which suppresses the corresponding
segment) and the built-in default exactly when none is; being a total
function it has no error path. -/
theorem get_def_override_precedence :
    (∀ (env : Env) (k : Key), _get_def env k = (env (envKey k)).getD (_DEFS k))
    ∧ numbers_segment envCleanOff rZero = []
    ∧ (∀ k : Key, _get_def envNone k = _DEFS k) := by
  refine ⟨?_, by decide, fun k => rfl⟩
  intro env k
  unfold _get_def
  cases env (envKey k) <;> rfl

/-- Claim C9: the stash count is the number of lines of the stash log
file, 0 when the file is absent, 0 when reading it fails, and the
collector's record carries exactly this count. -/
theorem get_stash_line_count :
    (∀ s : PyStr, _get_stash (FileOutcome.content s) = countPyLines s)
    ∧ _get_stash FileOutcome.absent = 0
    ∧ _get_stash FileOutcome.ioErr = 0
    ∧ (∀ (w : World) (env : Env) (r : GSRecord),
        gitstatus w env = Except.ok r → r.stashed = _get_stash w.stashLog) := by
  refine ⟨fun s => rfl, rfl, rfl, ?_⟩
  intro w env r h
  unfold gitstatus at h
  cases hs : _check_output w.statusRes with
  | error e =>
    simp only [hs, bindErr] at h
    exact Except.noConfusion h
  | ok status =>
    simp only [hs, bindOk] at h
    cases hf : (pySplitlines status).foldlM (parseLine w env) PState.init with
    | error e =>
      simp only [hf, bindErr] at h
      exact Except.noConfusion h
    | ok st =>
      simp only [hf, bindOk] at h
      cases hg : _check_output w.gitdirRes with
      | error e =>
        simp only [hg, bindErr] at h
        exact Except.noConfusion h
      | ok g =>
        simp only [hg, bindOk, pureOk, Except.ok.injEq] at h
        rw [← h]

/-- Witness for the final conjunct of the stash-count theorem at the
end-to-end world. -/
theorem get_stash_line_count_witness : recEnd.stashed = _get_stash wEnd.stashLog :=
  get_stash_line_count.2.2.2 wEnd envNone recEnd (by decide)

/-- Counterexample to claim C4: when the external tool cannot be
launched, `subprocess.check_output` raises an `OSError`, which is not a
`subprocess.SubprocessError`, so `gitstatus_prompt` propagates the
exception instead of returning the absent signal. -/
theorem prompt_launch_failure_raises :
    gitstatus_prompt wOsErr envNone = Except.error PyErr.osError
    ∧ gitstatus_prompt wOsErr envNone ≠ Except.ok none := by
  decide

/-- Claim C4 (amended): a `SubprocessError` (non-zero exit status or
timeout) anywhere during collection makes the renderer return the absent
signal and never a partial prompt, and a successful collection renders
the full record; but an `OSError` from a launch failure is not caught
and propagates as an exception. -/
theorem prompt_failure_modes :
    ∀ (w : World) (env : Env),
    (gitstatus w env = Except.error PyErr.subprocess →
      gitstatus_prompt w env = Except.ok none)
    ∧ (∀ r : GSRecord, gitstatus w env = Except.ok r →
      gitstatus_prompt w env = Except.ok (some (renderPrompt env r)))
    ∧ (w.statusRes = CmdResult.subErr → gitstatus_prompt w env = Except.ok none)
    ∧ (w.statusRes = CmdResult.osErr →
      gitstatus_prompt w env = Except.error PyErr.osError) := by
  intro w env
  have hsub : w.statusRes = CmdResult.subErr →
      gitstatus w env = Except.error PyErr.subprocess := by
    intro h
    unfold gitstatus
    rw [h]
    rfl
  have hos : w.statusRes = CmdResult.osErr →
      gitstatus w env = Except.error PyErr.osError := by
    intro h
    unfold gitstatus
    rw [h]
    rfl
  refine ⟨?_, ?_, ?_, ?_⟩
  · intro h; unfold gitstatus_prompt; rw [h]
  · intro r h; unfold gitstatus_prompt; rw [h]
  · intro h; unfold gitstatus_prompt; rw [hsub h]
  · intro h; unfold gitstatus_prompt; rw [hos h]

/-- Witness for the prompt failure-mode theorem: a timeout-style
`SubprocessError` world yields the absent signal, and the end-to-end
world yields the rendered record. -/
theorem prompt_failure_modes_witness :
    gitstatus_prompt wSubErr envNone = Except.ok none
    ∧ gitstatus_prompt wEnd envNone = Except.ok (some (renderPrompt envNone recEnd)) :=
  ⟨(prompt_failure_modes wSubErr envNone).2.2.1 rfl,
   (prompt_failure_modes wEnd envNone).2.1 recEnd (by decide)⟩

/-- Claim C8: with all five working-tree counts zero the numbers segment
is exactly the resolved CLEAN symbol (with the trailing color-reset
marker every entry receives), or is omitted when CLEAN resolves to the
empty string; with all counts positive the entries appear in the fixed
order STAGED, CONFLICTS, CHANGED, UNTRACKED, STASHED, joined by the
resolved NUMBERS_SEPARATOR. -/
theorem numbers_segment_spec :
    ∀ (env : Env) (r : GSRecord),
    (r.staged = 0 → r.conflicts = 0 → r.changed = 0 → r.untracked = 0 →
     r.stashed = 0 →
      numbers_part env r =
        (if _get_def env Key.CLEAN ≠ [] then [_get_def env Key.CLEAN] else [])
      ∧ numbers_segment env r =
        (if _get_def env Key.CLEAN ≠ [] then
          [_get_def env Key.CLEAN ++ "{NO_COLOR}".data] else []))
    ∧ (r.staged > 0 → r.conflicts > 0 → r.changed > 0 → r.untracked > 0 →
       r.stashed > 0 →
       _get_def env Key.STAGED ≠ [] → _get_def env Key.CONFLICTS ≠ [] →
       _get_def env Key.CHANGED ≠ [] → _get_def env Key.UNTRACKED ≠ [] →
       _get_def env Key.STASHED ≠ [] →
       numbers_segment env r =
        [pyJoin (_get_def env Key.NUMBERS_SEPARATOR)
          [_get_def env Key.STAGED ++ Nat.toDigits 10 r.staged ++ "{NO_COLOR}".data,
           _get_def env Key.CONFLICTS ++ Nat.toDigits 10 r.conflicts ++ "{NO_COLOR}".data,
           _get_def env Key.CHANGED ++ Nat.toDigits 10 r.changed ++ "{NO_COLOR}".data,
           _get_def env Key.UNTRACKED ++ Nat.toDigits 10 r.untracked ++ "{NO_COLOR}".data,
           _get_def env Key.STASHED ++ Nat.toDigits 10 r.stashed ++ "{NO_COLOR}".data]]) := by
  intro env r
  constructor
  · intro h1 h2 h3 h4 h5
    have hp : numbers_part env r =
        (if _get_def env Key.CLEAN ≠ [] then [_get_def env Key.CLEAN] else []) := by
      unfold numbers_part
      rw [h1, h2, h3, h4, h5]
      simp
    refine ⟨hp, ?_⟩
    unfold numbers_segment
    rw [hp]
    by_cases hc : _get_def env Key.CLEAN = []
    · simp [hc]
    · simp [hc, pyJoin]
  · intro p1 p2 p3 p4 p5 s1 s2 s3 s4 s5
    have hp : numbers_part env r =
        [_get_def env Key.STAGED ++ Nat.toDigits 10 r.staged,
         _get_def env Key.CONFLICTS ++ Nat.toDigits 10 r.conflicts,
         _get_def env Key.CHANGED ++ Nat.toDigits 10 r.changed,
         _get_def env Key.UNTRACKED ++ Nat.toDigits 10 r.untracked,
         _get_def env Key.STASHED ++ Nat.toDigits 10 r.stashed] := by
      unfold numbers_part
      simp [p1, p2, p3, p4, p5, s1, s2, s3, s4, s5, Nat.pos_iff_ne_zero]
    unfold numbers_segment
    rw [hp]
    simp [List.append_assoc]

/-- Witness for the numbers-segment theorem: the all-zero record renders
the default CLEAN symbol, and the all-positive record renders the five
entries in order. -/
theorem numbers_segment_spec_witness :
    numbers_segment envNone rZero =
      (if _get_def envNone Key.CLEAN ≠ [] then
        [_get_def envNone Key.CLEAN ++ "{NO_COLOR}".data] else [])
    ∧ numbers_segment envNone rPos =
      [pyJoin (_get_def envNone Key.NUMBERS_SEPARATOR)
        [_get_def envNone Key.STAGED ++ Nat.toDigits 10 rPos.staged ++ "{NO_COLOR}".data,
         _get_def envNone Key.CONFLICTS ++ Nat.toDigits 10 rPos.conflicts ++ "{NO_COLOR}".data,
         _get_def envNone Key.CHANGED ++ Nat.toDigits 10 rPos.changed ++ "{NO_COLOR}".data,
         _get_def envNone Key.UNTRACKED ++ Nat.toDigits 10 rPos.untracked ++ "{NO_COLOR}".data,
         _get_def envNone Key.STASHED ++ Nat.toDigits 10 rPos.stashed ++ "{NO_COLOR}".data]] :=
  ⟨((numbers_segment_spec envNone rZero).1 rfl rfl rfl rfl rfl).2,
   (numbers_segment_spec envNone rPos).2 (by decide) (by decide) (by decide)
     (by decide) (by decide) (by decide) (by decide) (by decide) (by decide)
     (by decide)⟩

/-- Claim C6: on a header line containing `no branch` (detached HEAD) the
branch is resolved by the exact-match tag lookup when its stripped output
is non-empty, and otherwise is the resolved HASH symbol concatenated with
the abbreviated current commit hash. -/
theorem detached_head_branch :
    ∀ (w : World) (env : Env) (st : PState) (line t h : PyStr),
    ("##".data).isPrefixOf line = true →
    strContains (pyTrim (line.drop 2)) ("Initial commit on".data) = false →
    strContains (pyTrim (line.drop 2)) ("no branch".data) = true →
    w.describeRes = CmdResult.out t →
    w.revShortRes = CmdResult.out h →
    parseLine w env st line = Except.ok
      { st with branch :=
          if pyTrim t ≠ [] then pyTrim t
          else _get_def env Key.HASH ++ pyTrim h } := by
  intro w env st line t h h1 h2 h3 hd hh
  have htag : _get_tag_or_hash w env = Except.ok
      (if pyTrim t ≠ [] then pyTrim t
       else _get_def env Key.HASH ++ pyTrim h) := by
    unfold _get_tag_or_hash
    rw [hd, hh]
    simp only [show _check_output (CmdResult.out t) = Except.ok t from rfl,
      show _check_output (CmdResult.out h) = Except.ok h from rfl, bindOk]
    by_cases hc : pyTrim t = []
    · simp [hc, pureOk]
    · simp [hc, pureOk]
  unfold parseLine
  simp only [h1, h2, h3, if_true, if_false, Bool.false_eq_true, ite_false, ite_true]
  rw [htag]
  rfl

/-- Witness for the detached-HEAD theorem: with tag output `v1.2.3` the
branch resolves to the tag. -/
theorem detached_head_branch_witness :
    parseLine wDetTag envNone PState.init ("## HEAD (no branch)").data = Except.ok
      { PState.init with branch := "v1.2.3".data } :=
  (detached_head_branch wDetTag envNone PState.init ("## HEAD (no branch)").data
    ("v1.2.3\n".data) ("a1b2c3d\n".data) (by decide) (by decide) (by decide)
    rfl rfl).trans rfl

/-- Claim C10: whenever the renderer returns a string, that string starts
with the resolved BRANCH symbol followed by the parsed branch name; the
branch segment is unconditionally the first joined part. -/
theorem prompt_starts_with_branch :
    ∀ (w : World) (env : Env) (s : PyStr),
    gitstatus_prompt w env = Except.ok (some s) →
    ∃ (r : GSRecord) (t : PyStr),
      gitstatus w env = Except.ok r ∧
      s = (_get_def env Key.BRANCH ++ r.branch) ++ t := by
  intro w env s h
  unfold gitstatus_prompt at h
  cases hg : gitstatus w env with
  | ok r =>
    rw [hg] at h
    simp only [Except.ok.injEq, Option.some.injEq] at h
    obtain ⟨t1, ht1⟩ := pyJoin_pre (_get_def env Key.PARTS_SEPARATOR)
      (branch_str env r) (operations_segment env r ++ numbers_segment env r)
    have hbp : branch_part env r
        = (_get_def env Key.BRANCH ++ r.branch) :: (branch_part env r).tail := rfl
    obtain ⟨t2, ht2⟩ := pyJoin_pre (_get_def env Key.AHEAD_BEHIND_SEPARATOR)
      (_get_def env Key.BRANCH ++ r.branch) ((branch_part env r).tail)
    refine ⟨r, t2 ++ t1, rfl, ?_⟩
    rw [← h]
    unfold renderPrompt renderParts
    rw [ht1]
    unfold branch_str
    rw [hbp, ht2, List.append_assoc]
  | error e =>
    cases e with
    | subprocess =>
      rw [hg] at h
      simp at h
    | osError =>
      rw [hg] at h
      exact Except.noConfusion h
    | valueError =>
      rw [hg] at h
      exact Except.noConfusion h

/-- Witness for the branch-first theorem at the end-to-end world. -/
theorem prompt_starts_with_branch_witness :
    ∃ (r : GSRecord) (t : PyStr),
      gitstatus wEnd envNone = Except.ok r ∧
      renderPrompt envNone recEnd = (_get_def envNone Key.BRANCH ++ r.branch) ++ t :=
  prompt_starts_with_branch wEnd envNone (renderPrompt envNone recEnd) (by decide)

/-- One entry (non-header) line updates the four working-tree counters by
its per-line contributions and touches nothing else. -/
theorem parseLine_entry (w : World) (env : Env) (st : PState) (l : PyStr)
    (h : ("##".data).isPrefixOf l = false) :
    parseLine w env st l = Except.ok
      { st with untracked := st.untracked + deltaUntracked l,
                changed := st.changed + deltaChanged l,
                conflicts := st.conflicts + deltaConflicts l,
                staged := st.staged + deltaStaged l } := by
  unfold parseLine deltaUntracked deltaChanged deltaConflicts deltaStaged
  simp only [h, Bool.false_eq_true, if_false]
  by_cases h2 : ("??".data).isPrefixOf l = true
  · simp [h2, pureOk]
  · simp only [h2, Bool.false_eq_true, if_false, if_true, not_false_iff, true_and]
    by_cases hM : l[1]? = some 'M' <;>
      by_cases hU : l[0]? = some 'U' <;>
        by_cases hS : (l[0]?.any (fun c => c != ' ')) = true <;>
          simp [h2, hM, hU, hS, pureOk]

/-- Folding the line loop over entry lines accumulates the per-line
contributions of each counter. -/
theorem parse_entries_fold (w : World) (env : Env) :
    ∀ (lines : List PyStr) (st : PState),
    (∀ l ∈ lines, ("##".data).isPrefixOf l = false) →
    lines.foldlM (parseLine w env) st = Except.ok
      { st with untracked := st.untracked + (lines.map deltaUntracked).sum,
                changed := st.changed + (lines.map deltaChanged).sum,
                conflicts := st.conflicts + (lines.map deltaConflicts).sum,
                staged := st.staged + (lines.map deltaStaged).sum } := by
  intro lines
  induction lines with
  | nil =>
    intro st _
    simp [pureOk]
  | cons l ls ih =>
    intro st h
    rw [List.foldlM_cons, parseLine_entry w env st l (h l (by simp)), bindOk,
      ih _ (fun x hx => h x (by simp [hx]))]
    simp [Nat.add_assoc]

/-- Counterexample to claim C3: the entry line ` D x` (deleted in the
working tree, nothing staged) contributes to none of the four counters,
although it is a non-header, non-blank line; and the line `UM x`
contributes to both changed and conflicts (not staged), which the
claimed staged-and-modified exception does not cover. -/
theorem entry_line_counterexample :
    gitstatus wDeleted envNone = Except.ok
      { branch := [], num_ahead := 0, num_behind := 0, untracked := 0,
        changed := 0, conflicts := 0, staged := 0, stashed := 0,
        operations := [] }
    ∧ (pySplitlines (" D x\n".data)).length = 1
    ∧ parseLine wDeleted envNone PState.init ("UM x".data) = Except.ok
        { branch := [], num_ahead := 0, num_behind := 0, untracked := 0,
          changed := 1, conflicts := 1, staged := 0 } := by
  exact ⟨by decide, by decide, by decide⟩

/-- Claim C3 (amended): every entry line contributes one to untracked
when it starts with `??`; otherwise it contributes one to changed when
its second character is `M`, and independently one to conflicts when its
first character is `U`, or else one to staged when it is non-empty with a
non-space first character.  A line therefore feeds zero, one or two
counters — two only for a line with second character `M` that also
matches the conflicts or the staged test — and the final counts are the
sums of these per-line contributions. -/
theorem entry_line_classification :
    ∀ (w : World) (env : Env) (lines : List PyStr) (st : PState),
    (∀ l ∈ lines, ("##".data).isPrefixOf l = false) →
    lines.foldlM (parseLine w env) st = Except.ok
      { st with untracked := st.untracked + (lines.map deltaUntracked).sum,
                changed := st.changed + (lines.map deltaChanged).sum,
                conflicts := st.conflicts + (lines.map deltaConflicts).sum,
                staged := st.staged + (lines.map deltaStaged).sum }
    ∧ ∀ l ∈ lines,
        deltaUntracked l + deltaChanged l + deltaConflicts l + deltaStaged l ≤ 2
        ∧ (deltaUntracked l + deltaChanged l + deltaConflicts l + deltaStaged l = 2 →
            deltaChanged l = 1 ∧ deltaUntracked l = 0
            ∧ (deltaConflicts l = 1 ∨ deltaStaged l = 1)) := by
  intro w env lines st h
  refine ⟨parse_entries_fold w env lines st h, ?_⟩
  intro l _
  unfold deltaUntracked deltaChanged deltaConflicts deltaStaged
  by_cases h1 : ("??".data).isPrefixOf l = true <;>
    by_cases h2 : l[1]? = some 'M' <;>
      by_cases h3 : l[0]? = some 'U' <;>
        by_cases h4 : (l[0]?.any (fun c => c != ' ')) = true <;>
          simp [h1, h2, h3, h4]

/-- Witness for the entry-line classification theorem on the three entry
lines of the end-to-end scenario. -/
theorem entry_line_classification_witness :
    [" M file1.txt".data, "?? new.txt".data, "UU conflict.txt".data].foldlM
      (parseLine wEnd envNone) PState.init = Except.ok
      { branch := [], num_ahead := 0, num_behind := 0, untracked := 0 + 1,
        changed := 0 + 1, conflicts := 0 + 1, staged := 0 + 0 } :=
  (entry_line_classification wEnd envNone
    [" M file1.txt".data, "?? new.txt".data, "UU conflict.txt".data]
    PState.init (by decide)).1

/-- Counterexample to claim C2: the header `## Initial commit on a...b`
contains the tracking separator, but the parser takes the earlier
initial-commit case and sets the branch to the last whitespace-separated
token `a...b`, not to the text before `...`. -/
theorem tracking_separator_counterexample :
    gitstatus wInitialDots envNone = Except.ok
      { branch := "a...b".data, num_ahead := 0, num_behind := 0,
        untracked := 0, changed := 0, conflicts := 0, staged := 0,
        stashed := 0, operations := [] }
    ∧ "a...b".data ≠ "Initial commit on a".data := by
  exact ⟨by decide, by decide⟩

/-- Claim C2 (amended): a header line that contains `...` and neither
`Initial commit on` nor `no branch`, and splits on `...` into exactly
two pieces, sets the branch to the first piece; when the remainder has a
space, the pieces obtained by splitting the bracket-stripped text after
the first space on `, ` are folded with the divergence step, in which a
piece containing `ahead` assigns ahead from its trailing integer, and a
piece without `ahead` but containing `behind` assigns behind likewise;
in particular `## main...origin/main [ahead 2, behind 1]` yields branch
`main`, ahead 2, behind 1. -/
theorem tracking_branch_parsing :
    (∀ (w : World) (env : Env) (st : PState) (line b rest : PyStr),
      ("##".data).isPrefixOf line = true →
      strContains (pyTrim (line.drop 2)) ("Initial commit on".data) = false →
      strContains (pyTrim (line.drop 2)) ("no branch".data) = false →
      strContains (pyTrim (line.drop 2)) ("...".data) = true →
      pySplit ("...".data) (pyTrim (line.drop 2)) = [b, rest] →
      (strContains rest [' '] = false →
        parseLine w env st line = Except.ok { st with branch := b })
      ∧ (strContains rest [' '] = true →
        parseLine w env st line =
          ((pySplit (", ".data) (pyStripSquare (pySplitFirst rest))).foldlM
            divStep (st.num_ahead, st.num_behind)).map
            (fun ab =>
              { st with branch := b, num_ahead := ab.1, num_behind := ab.2 })))
    ∧ (∀ (ab : Int × Int) (d : PyStr) (n : Int),
        strContains d ("ahead".data) = true → pyInt (d.drop 6) = Except.ok n →
        divStep ab d = Except.ok (n, ab.2))
    ∧ (∀ (ab : Int × Int) (d : PyStr) (n : Int),
        strContains d ("ahead".data) = false →
        strContains d ("behind".data) = true →
        pyInt (d.drop 7) = Except.ok n →
        divStep ab d = Except.ok (ab.1, n))
    ∧ gitstatus wDiv envNone = Except.ok
        { branch := "main".data, num_ahead := 2, num_behind := 1,
          untracked := 0, changed := 0, conflicts := 0, staged := 0,
          stashed := 0, operations := [] } := by
  refine ⟨?_, ?_, ?_, by decide⟩
  · intro w env st line b rest h1 h2 h3 h4 h5
    unfold parseLine
    simp only [h1, h2, h3, h4, h5, if_true, Bool.false_eq_true, if_false,
      Bool.not_true, Bool.true_eq_false, ite_false, ite_true]
    constructor
    · intro hsp
      simp only [hsp, Bool.false_eq_true, if_false]
      rfl
    · intro hsp
      simp only [hsp, if_true]
      rw [except_bind_pure]
  · intro ab d n ha hn
    unfold divStep
    simp only [ha, if_true]
    rw [hn, bindOk, pureOk]
  · intro ab d n ha hb hn
    unfold divStep
    simp only [ha, hb, Bool.false_eq_true, if_false, if_true]
    rw [hn, bindOk, pureOk]

/-- Witness for the tracking-branch parsing theorem on the divergence
header of the testable-properties scenario. -/
theorem tracking_branch_parsing_witness :
    parseLine (wOf []) envNone PState.init
      ("## main...origin/main [ahead 2, behind 1]".data) =
      ((pySplit (", ".data)
          (pyStripSquare (pySplitFirst ("origin/main [ahead 2, behind 1]".data)))).foldlM
        divStep ((0 : Int), (0 : Int))).map
        (fun ab =>
          { PState.init with branch := "main".data, num_ahead := ab.1,
                             num_behind := ab.2 })
    ∧ divStep ((0 : Int), (0 : Int)) ("ahead 2".data) = Except.ok (2, 0)
    ∧ divStep ((0 : Int), (0 : Int)) ("behind 1".data) = Except.ok (0, 1) :=
  ⟨(tracking_branch_parsing.1 (wOf []) envNone PState.init
      ("## main...origin/main [ahead 2, behind 1]".data) ("main".data)
      ("origin/main [ahead 2, behind 1]".data) (by decide) (by decide)
      (by decide) (by decide) (by decide)).2 (by decide),
   tracking_branch_parsing.2.1 ((0 : Int), (0 : Int)) ("ahead 2".data) 2
     (by decide) (by decide),
   tracking_branch_parsing.2.2.1 ((0 : Int), (0 : Int)) ("behind 1".data) 1
     (by decide) (by decide) (by decide)⟩

/-- When the tag and hash queries both succeed, `_get_tag_or_hash`
returns successfully. -/
theorem tag_or_hash_ok (w : World) (env : Env) (t h : PyStr)
    (hd : w.describeRes = CmdResult.out t) (hh : w.revShortRes = CmdResult.out h) :
    ∃ b, _get_tag_or_hash w env = Except.ok b := by
  unfold _get_tag_or_hash
  rw [hd, hh]
  simp only [show _check_output (CmdResult.out t) = Except.ok t from rfl,
    show _check_output (CmdResult.out h) = Except.ok h from rfl, bindOk]
  by_cases hc : pyTrim t = []
  · exact ⟨_get_def env Key.HASH ++ pyTrim h, by simp [hc, pureOk]⟩
  · exact ⟨pyTrim t, by simp [hc, pureOk]⟩

/-- The divergence fold succeeds on a list of well-formed pieces. -/
theorem divFold_ok :
    ∀ (ds : List PyStr) (ab : Int × Int), ds.all divOK = true →
    ∃ ab2, ds.foldlM divStep ab = Except.ok ab2 := by
  intro ds
  induction ds with
  | nil => exact fun ab _ => ⟨ab, rfl⟩
  | cons d rest ih =>
    intro ab hall
    rw [List.all_cons, Bool.and_eq_true] at hall
    obtain ⟨hd1, hrest⟩ := hall
    have hstep : ∃ ab1, divStep ab d = Except.ok ab1 := by
      unfold divOK at hd1
      unfold divStep
      by_cases c1 : strContains d ("ahead".data) = true
      · rw [if_pos c1] at hd1 ⊢
        cases hx : pyInt (d.drop 6) with
        | ok n => exact ⟨(n, ab.2), rfl⟩
        | error e => rw [hx] at hd1; exact Bool.noConfusion hd1
      · rw [if_neg c1] at hd1 ⊢
        by_cases c2 : strContains d ("behind".data) = true
        · rw [if_pos c2] at hd1 ⊢
          cases hx : pyInt (d.drop 7) with
          | ok n => exact ⟨(ab.1, n), rfl⟩
          | error e => rw [hx] at hd1; exact Bool.noConfusion hd1
        · rw [if_neg c2]
          exact ⟨ab, rfl⟩
    obtain ⟨ab1, h1⟩ := hstep
    obtain ⟨ab2, h2⟩ := ih ab1 hrest
    exact ⟨ab2, by rw [List.foldlM_cons, h1, bindOk, h2]⟩

/-- One well-formed status line is processed without raising, provided
the tag and hash queries of the detached-HEAD case succeed. -/
theorem parseLine_no_raise (w : World) (env : Env) (t h : PyStr)
    (hd : w.describeRes = CmdResult.out t) (hh : w.revShortRes = CmdResult.out h)
    (st : PState) (l : PyStr) (hok : lineOK l = true) :
    ∃ st2, parseLine w env st l = Except.ok st2 := by
  by_cases hdr : ("##".data).isPrefixOf l = true
  case neg =>
    rw [Bool.not_eq_true] at hdr
    exact ⟨_, parseLine_entry w env st l hdr⟩
  case pos =>
    unfold parseLine lineOK at *
    simp only [hdr, if_true] at hok ⊢
    by_cases c1 : strContains (pyTrim (List.drop 2 l)) ("Initial commit on".data) = true
    · simp only [c1, if_true]
      exact ⟨_, rfl⟩
    rw [Bool.not_eq_true] at c1
    simp only [c1, Bool.false_eq_true, if_false] at hok ⊢
    by_cases c2 : strContains (pyTrim (List.drop 2 l)) ("no branch".data) = true
    · simp only [c2, if_true]
      obtain ⟨b, hb⟩ := tag_or_hash_ok w env t h hd hh
      exact ⟨_, by rw [hb, bindOk, pureOk]⟩
    rw [Bool.not_eq_true] at c2
    simp only [c2, Bool.false_eq_true, if_false] at hok ⊢
    by_cases c3 : strContains (pyTrim (List.drop 2 l)) ("...".data) = true
    case neg =>
      rw [Bool.not_eq_true] at c3
      simp only [c3, Bool.not_false, if_true]
      exact ⟨_, rfl⟩
    case pos =>
      simp only [c3, Bool.not_true, Bool.false_eq_true, if_false] at hok ⊢
      cases hsplit : pySplit ("...".data) (pyTrim (List.drop 2 l)) with
      | nil =>
        simp only [hsplit] at hok
        exact absurd hok (by decide)
      | cons b parts =>
        cases parts with
        | nil =>
          simp only [hsplit] at hok
          exact absurd hok (by decide)
        | cons rest more =>
          cases more with
          | nil =>
            simp only [hsplit] at hok ⊢
            by_cases c4 : strContains rest [' '] = true
            · simp only [c4, if_true] at hok ⊢
              obtain ⟨ab2, hab⟩ := divFold_ok _ (st.num_ahead, st.num_behind) hok
              exact ⟨_, by rw [hab, bindOk, pureOk]⟩
            · rw [Bool.not_eq_true] at c4
              simp only [c4, Bool.false_eq_true, if_false]
              exact ⟨_, rfl⟩
          | cons x xs =>
            simp only [hsplit] at hok
            exact absurd hok (by decide)

/-- The line loop succeeds on any list of well-formed lines. -/
theorem parse_fold_no_raise (w : World) (env : Env) (t h : PyStr)
    (hd : w.describeRes = CmdResult.out t) (hh : w.revShortRes = CmdResult.out h) :
    ∀ (lines : List PyStr) (st : PState),
    (∀ l ∈ lines, lineOK l = true) →
    ∃ st2, lines.foldlM (parseLine w env) st = Except.ok st2 := by
  intro lines
  induction lines with
  | nil => exact fun st _ => ⟨st, rfl⟩
  | cons l ls ih =>
    intro st hall
    obtain ⟨st1, h1⟩ := parseLine_no_raise w env t h hd hh st l (hall l (by simp))
    obtain ⟨st2, h2⟩ := ih st1 (fun x hx => hall x (by simp [hx]))
    exact ⟨st2, by rw [List.foldlM_cons, h1, bindOk, h2]⟩

/-- Counterexample to claim C5: a header with two occurrences of the
tracking separator makes the two-name unpacking of `line.split('...')`
raise a `ValueError`, and a non-integer ahead count makes `int()` raise
a `ValueError`; in both cases the collector throws. -/
theorem parser_error_counterexample :
    gitstatus wDouble envNone = Except.error PyErr.valueError
    ∧ gitstatus wBadInt envNone = Except.error PyErr.valueError := by
  exact ⟨by decide, by decide⟩

/-- Claim C5 (amended): parsing raises no error as long as every header
line containing `...` (outside the initial-commit and detached-HEAD
cases) splits into exactly two pieces with well-formed integer
divergence counts (and the detached-HEAD queries succeed); malformed
shapes otherwise degrade silently, with a divergence-free remainder
leaving ahead and behind at their default 0.  Headers with extra `...`
occurrences or non-integer counts do raise (see the counterexample). -/
theorem parser_error_conditions :
    (∀ (w : World) (env : Env) (s g t h : PyStr),
      w.statusRes = CmdResult.out s → w.gitdirRes = CmdResult.out g →
      w.describeRes = CmdResult.out t → w.revShortRes = CmdResult.out h →
      (∀ l ∈ pySplitlines s, lineOK l = true) →
      ∃ r, gitstatus w env = Except.ok r)
    ∧ (∀ (w : World) (env : Env) (st : PState) (line b rest : PyStr),
        ("##".data).isPrefixOf line = true →
        strContains (pyTrim (line.drop 2)) ("Initial commit on".data) = false →
        strContains (pyTrim (line.drop 2)) ("no branch".data) = false →
        strContains (pyTrim (line.drop 2)) ("...".data) = true →
        pySplit ("...".data) (pyTrim (line.drop 2)) = [b, rest] →
        strContains rest [' '] = false →
        parseLine w env st line = Except.ok { st with branch := b }) := by
  constructor
  · intro w env s g t h hs hg hd hh hall
    obtain ⟨st, hfold⟩ := parse_fold_no_raise w env t h hd hh (pySplitlines s)
      PState.init hall
    refine ⟨{ branch := st.branch, num_ahead := st.num_ahead,
              num_behind := st.num_behind, untracked := st.untracked,
              changed := st.changed, conflicts := st.conflicts,
              staged := st.staged, stashed := _get_stash w.stashLog,
              operations := _gitoperation w }, ?_⟩
    unfold gitstatus
    rw [hs, hg]
    simp only [show _check_output (CmdResult.out s) = Except.ok s from rfl,
      show _check_output (CmdResult.out g) = Except.ok g from rfl, bindOk]
    rw [hfold, bindOk]
    rfl
  · intro w env st line b rest h1 h2 h3 h4 h5 h6
    unfold parseLine
    simp only [h1, h2, h3, h4, h5, h6, if_true, Bool.false_eq_true, if_false,
      Bool.not_true, Bool.true_eq_false, ite_false, ite_true]
    rfl

/-- Witness for the parser error-condition theorem: the end-to-end world
parses without raising, and a divergence-free tracking header keeps both
counts at 0. -/
theorem parser_error_conditions_witness :
    (∃ r, gitstatus wEnd envNone = Except.ok r)
    ∧ parseLine (wOf []) envNone PState.init ("## dev...origin/dev".data) =
        Except.ok { PState.init with branch := "dev".data } :=
  ⟨parser_error_conditions.1 wEnd envNone _ _ _ _ rfl rfl rfl rfl (by decide),
   parser_error_conditions.2 (wOf []) envNone PState.init
     ("## dev...origin/dev".data) ("dev".data) ("origin/dev".data)
     (by decide) (by decide) (by decide) (by decide) (by decide) (by decide)⟩

end Gitstatus
